import Mathlib

/-!
Shallow embedding of the kowai backend's AI pipeline core, translated from
`src/backend/app/ai/agents.py`, `src/backend/app/ai/nodes/agents/*.py` and
`src/backend/app/ai/workflows/flows/sequential_processing.py`.

Python runtime values stored in metadata fields are modelled by the dynamic
`Value` type; stateful mutation is modelled by explicit state passing; a raised
exception is modelled by the error side of a sum.  Retry behaviour of a
Prefect `@task(retries=r, retry_delay_seconds=d)` decorator is modelled
explicitly: the task body runs once and, on any raised exception, is retried
up to `r` further times with a delay of `d` seconds before each retry
(Prefect applies no filtering on the exception type, and the source configures
none).
-/

set_option autoImplicit false

/-- The `ProviderType` enum of `app/ai/agents.py` (lines 7-21). -/
inductive ProviderType where
  | OPENAI
  | AZURE
  | AWS
  | HUGGINGFACE
  | COHERE
  | ANTHROPIC
  | MISTRAL
  | GROQ
  | GROK
  | GOOGLE
  | LOCAL
  | OPENROUTER
  deriving DecidableEq, Repr

/-- The `.value` attribute of each `ProviderType` member, as declared in the source. -/
def ProviderType.value : ProviderType → String
  | .OPENAI => "openai"
  | .AZURE => "azure"
  | .AWS => "aws"
  | .HUGGINGFACE => "huggingface"
  | .COHERE => "cohere"
  | .ANTHROPIC => "anthropic"
  | .MISTRAL => "mistral"
  | .GROQ => "groq"
  | .GROK => "grok"
  | .GOOGLE => "google"
  | .LOCAL => "local"
  | .OPENROUTER => "openrouter"

/-- Dynamic Python runtime value held by a metadata attribute.  Pydantic does
not validate plain attribute assignment (no `validate_assignment` in the
source), so after `update_metadata` a field may hold a value of any runtime
type; `float` literals are represented by rationals (no float arithmetic is
performed anywhere in the embedded code). -/
inductive Value where
  | str (s : String)
  | int (n : Int)
  | float (q : Rat)
  | provider (p : ProviderType)
  | null
  deriving DecidableEq, Repr

/-- Python attribute access `v.value`: defined exactly when the value is a
`ProviderType` member; anything else is an `AttributeError` (`Option.none`). -/
def Value.enumValue : Value → Option String
  | .provider p => Option.some p.value
  | _ => Option.none

/-- The pydantic `Metadata` model of `app/ai/agents.py` (lines 24-34): fields
`model, tokens, temperature, max_tokens, provider, api_key, base_url`
(the source declares `model` twice; a Python class body keeps one attribute). -/
structure Metadata where
  model : Value
  tokens : Value
  temperature : Value
  max_tokens : Value
  provider : Value
  api_key : Value := Value.null
  base_url : Value := Value.null
  deriving DecidableEq, Repr

/-- The attribute names of the `Metadata` model: exactly the names for which
`hasattr(self.metadata, key)` holds and assignment is permitted by pydantic. -/
def metadataFields : List String :=
  ["model", "tokens", "temperature", "max_tokens", "provider", "api_key", "base_url"]

/-- Python `setattr(metadata, key, value)` for a declared field name. -/
def Metadata.setField (m : Metadata) (k : String) (v : Value) : Metadata :=
  if k = "model" then { m with model := v }
  else if k = "tokens" then { m with tokens := v }
  else if k = "temperature" then { m with temperature := v }
  else if k = "max_tokens" then { m with max_tokens := v }
  else if k = "provider" then { m with provider := v }
  else if k = "api_key" then { m with api_key := v }
  else if k = "base_url" then { m with base_url := v }
  else m

/-- The `Management` class of `app/ai/agents.py` (lines 37-69); its only
state is the bound `metadata` object. -/
structure Management where
  metadata : Metadata
  deriving DecidableEq, Repr

/-- `Management.update_metadata(**kwargs)` (lines 51-58): iterates the keyword
items in order; a known attribute name is assigned in place, the first unknown
name raises `ValueError(f"Invalid metadata field: {key}")`.  The returned pair
is the (mutated-in-place) management object together with the raised error
message, if any. -/
def Management.update_metadata : Management → List (String × Value) → Management × Option String
  | mg, [] => (mg, Option.none)
  | mg, (k, v) :: rest =>
      if metadataFields.contains k then
        Management.update_metadata ⟨mg.metadata.setField k v⟩ rest
      else
        (mg, Option.some ("Invalid metadata field: " ++ k))

/-- The argument record passed to `dspy.LM(...)` by `Management.get_lm`
(lines 60-69).  The constructor itself is external library code; the embedding
records exactly the values the source forwards to it. -/
structure LM where
  model : Value
  max_tokens : Value
  temperature : Value
  provider : String
  api_key : Value
  base_url : Value
  deriving DecidableEq, Repr

/-- `Management.get_lm` (lines 60-69): forwards the bound metadata to
`dspy.LM` unchanged.  The only failure mode in the repository's own code is
the attribute access `self.metadata.provider.value`, an `AttributeError`
(modelled as `Option.none`) when the provider field does not hold a
`ProviderType` member; no other validation of any kind is performed. -/
def Management.get_lm (mg : Management) : Option LM :=
  match mg.metadata.provider.enumValue with
  | Option.some pv =>
      Option.some
        { model := mg.metadata.model
          max_tokens := mg.metadata.max_tokens
          temperature := mg.metadata.temperature
          provider := pv
          api_key := mg.metadata.api_key
          base_url := mg.metadata.base_url }
  | Option.none => Option.none

/-- A dspy `Signature` class, reduced to its declared field names: the ordered
input field names and output field names (semantic descriptions elided; no
claim inspects them). -/
structure Signature where
  inputs : List String
  outputs : List String
  deriving DecidableEq, Repr

/-- `ReasoningNode` of `app/ai/nodes/agents/base.py` (lines 26-33). -/
def ReasoningNode : Signature :=
  { inputs := ["query"], outputs := ["keywords", "reasoning"] }

/-- `EnhanceQueryNode` of `app/ai/nodes/agents/base.py` (lines 36-44). -/
def EnhanceQueryNode : Signature :=
  { inputs := ["query", "keywords", "reasoning"], outputs := ["enhanced_query"] }

/-- `QANode` of `app/ai/nodes/agents/base.py` (lines 47-54). -/
def QANode : Signature :=
  { inputs := ["question", "context"], outputs := ["answer"] }

/-- `AdvisorNode` of `app/ai/nodes/agents/advisor.py` (lines 6-14). -/
def AdvisorNode : Signature :=
  { inputs := ["query", "keywords", "reasoning"], outputs := ["advice"] }

/-- `MathNode` of `app/ai/nodes/agents/math.py` (lines 5-10). -/
def MathNode : Signature :=
  { inputs := ["query", "reasoning"], outputs := ["result"] }

/-- `SecurityNode` of `app/ai/nodes/agents/security.py` (lines 5-9). -/
def SecurityNode : Signature :=
  { inputs := ["query"], outputs := ["security_check"] }

/-- A constructed agent: the bound metadata plus the ordered stage sequence
its `forward` method executes. -/
structure Agent where
  metadata : Metadata
  stages : List Signature
  deriving DecidableEq, Repr

/-- `BaseAgent.__init__` of `app/ai/nodes/agents/base.py` (lines 60-65): it
unconditionally assembles `reasoner`, `enhance_query` and `get_answer` (the
stage order of `forward`, lines 67-81) and performs no validation of any
kind; it is a total function and cannot raise. -/
def BaseAgent.init (m : Metadata) : Agent :=
  { metadata := m, stages := [ReasoningNode, EnhanceQueryNode, QANode] }

/-- `AdvisorAgent.__init__` of `app/ai/nodes/agents/advisor.py` (lines 19-23). -/
def AdvisorAgent.init (m : Metadata) : Agent :=
  { metadata := m, stages := [ReasoningNode, AdvisorNode] }

/-- `MathAgent.__init__` of `app/ai/nodes/agents/math.py` (lines 13-16). -/
def MathAgent.init (m : Metadata) : Agent :=
  { metadata := m, stages := [ReasoningNode, MathNode] }

/-- `SecurityAgent.__init__` of `app/ai/nodes/agents/security.py` (lines 14-17). -/
def SecurityAgent.init (m : Metadata) : Agent :=
  { metadata := m, stages := [SecurityNode] }

/-- The construction-time invariant stated by the spec: each stage's declared
outputs are a superset of the next stage's declared input field names. -/
def chainOk : List Signature → Bool
  | [] => true
  | [_] => true
  | a :: b :: rest => (b.inputs.all fun f => a.outputs.contains f) && chainOk (b :: rest)

/-- The error taxonomy relevant to the workflow claims: the spec's
`TransientInferenceError`, `FatalInferenceError`, and any other raised
exception. -/
inductive ErrKind where
  | transient
  | fatal
  | other
  deriving DecidableEq, Repr

/-- Outcome of one awaited call `agent(msg)`: a returned string or a raised
exception of some kind. -/
inductive CallResult where
  | ok (s : String)
  | err (e : ErrKind)
  deriving DecidableEq, Repr

/-- Behaviour of the `dspy.Module` agent passed into the flow: what the call
`agent(msg)` does on its n-th invocation within one task (0-indexed), so that
retried attempts may observe different outcomes. -/
def AgentCall : Type := String → Nat → CallResult

/-- Python `str.lower()` as used on the security result: character-wise
lower-casing (the values compared against are ASCII). -/
def pyLower (s : String) : String := ⟨s.data.map Char.toLower⟩

/-- The body of the `security_check` task
(`sequential_processing.py`, lines 21-28) on one attempt: awaits the agent
and, when a string comes back, returns `result.lower() == "passed"`.  Any
raised exception propagates; any returned string other than (case variants
of) `"passed"` yields `false` - there is no contract-violation branch. -/
def security_check (agent : AgentCall) (msg : String) (i : Nat) : Except ErrKind Bool :=
  match agent msg i with
  | CallResult.ok r => Except.ok (pyLower r == "passed")
  | CallResult.err e => Except.error e

/-- The body of the `get_response` task (`sequential_processing.py`,
lines 30-40) on one attempt: awaits the agent; its `try/except` re-raises
every exception unchanged. -/
def get_response (agent : AgentCall) (msg : String) (i : Nat) : Except ErrKind String :=
  match agent msg i with
  | CallResult.ok r => Except.ok r
  | CallResult.err e => Except.error e

/-- The retry policy of a Prefect `@task(retries=r, retry_delay_seconds=d)`
decorator. -/
structure TaskPolicy where
  retries : Nat
  retry_delay_seconds : Nat
  deriving DecidableEq, Repr

/-- Both tasks in the source are decorated `@task(retries=3, retry_delay_seconds=5)`
(`sequential_processing.py`, lines 21 and 30). -/
def taskPolicy : TaskPolicy := { retries := 3, retry_delay_seconds := 5 }

/-- Record of one task execution: the final outcome, how many attempts ran
(initial run plus retries), and the total retry-delay seconds slept. -/
structure TaskRun (α : Type) where
  result : Except ErrKind α
  attempts : Nat
  delayTotal : Nat
  deriving Repr

/-- Prefect task execution: run the body; on success stop; on ANY raised
exception, if retries remain, sleep the fixed delay and run the body again.
Prefect retries every exception alike - the source configures no
`retry_condition_fn`, so the exception's kind never influences retrying. -/
def runTaskAux {α : Type} (p : TaskPolicy) (body : Nat → Except ErrKind α)
    (i : Nat) : Nat → TaskRun α
  | 0 =>
      match body i with
      | Except.ok a => ⟨Except.ok a, 1, 0⟩
      | Except.error e => ⟨Except.error e, 1, 0⟩
  | r + 1 =>
      match body i with
      | Except.ok a => ⟨Except.ok a, 1, 0⟩
      | Except.error _ =>
          let t := runTaskAux p body (i + 1) r
          ⟨t.result, t.attempts + 1, t.delayTotal + p.retry_delay_seconds⟩

/-- Execute a task under a policy, starting at attempt 0 with the full retry
budget. -/
def runTask {α : Type} (p : TaskPolicy) (body : Nat → Except ErrKind α) : TaskRun α :=
  runTaskAux p body 0 p.retries

/-- Terminal error of one flow run: the `ValueError("Security check failed")`
raised by the flow body when the security task returned `False` (the source's
realization of the spec's `SecurityRejected` outcome), or an exception
propagated out of an exhausted task. -/
inductive FlowError where
  | securityFailed
  | taskFailed (e : ErrKind)
  deriving DecidableEq, Repr

/-- Record of one run of the flow: the returned response or terminal error,
how many attempts the `security_check` task consumed, and how many attempts
(agent invocations) the `get_response` task consumed - 0 meaning the task
was never invoked. -/
structure FlowRun where
  result : Except FlowError String
  securityAttempts : Nat
  responseAttempts : Nat
  deriving Repr

/-- `sequential_chat_processing_flow` (`sequential_processing.py`,
lines 42-63): run the `security_check` task (with its retry policy); if it
ultimately raised, the flow's `try/except` re-raises and the run fails with
that exception.  If it returned `False`, the flow raises
`ValueError("Security check failed")` without ever invoking `get_response`.
Otherwise the `get_response` task runs (with its retry policy) and its value
or final exception becomes the run's outcome. -/
def sequential_chat_processing_flow (agent : AgentCall) (message : String) : FlowRun :=
  let sec := runTask taskPolicy (security_check agent message)
  match sec.result with
  | Except.error e => ⟨Except.error (FlowError.taskFailed e), sec.attempts, 0⟩
  | Except.ok passed =>
      if passed then
        let resp := runTask taskPolicy (get_response agent message)
        match resp.result with
        | Except.ok s => ⟨Except.ok s, sec.attempts, resp.attempts⟩
        | Except.error e => ⟨Except.error (FlowError.taskFailed e), sec.attempts, resp.attempts⟩
      else
        ⟨Except.error FlowError.securityFailed, sec.attempts, 0⟩

/-- The flow decorator's `timeout_seconds` argument
(`sequential_processing.py`, line 42). -/
def sequentialFlowTimeoutSeconds : Nat := 300

/-- Agent behaviour that returns the string "failed" on every call: a
security pipeline that deterministically rejects. -/
def agentConstFailed : AgentCall := fun _ _ => CallResult.ok "failed"

/-- Agent behaviour that returns the mixed-case string "PASSED" on every call. -/
def agentConstPASSED : AgentCall := fun _ _ => CallResult.ok "PASSED"

/-- Agent behaviour that returns a string outside the declared
`Literal["passed", "failed"]` contract on every call. -/
def agentConstOther : AgentCall := fun _ _ => CallResult.ok "suspicious"

/-- Agent behaviour that raises `TransientInferenceError` on every call. -/
def agentAlwaysTransient : AgentCall := fun _ _ => CallResult.err ErrKind.transient

/-- Agent behaviour that raises `FatalInferenceError` on every call. -/
def agentConstFatal : AgentCall := fun _ _ => CallResult.err ErrKind.fatal

/-- Agent behaviour that raises `FatalInferenceError` on the first call and
returns "passed" on every later call. -/
def agentFatalThenOk : AgentCall := fun _ i =>
  if i = 0 then CallResult.err ErrKind.fatal else CallResult.ok "passed"

/-- A concrete well-formed metadata record for witnesses. -/
def metadata0 : Metadata :=
  { model := Value.str "openai/gpt-4o"
    tokens := Value.int 0
    temperature := Value.float (7 / 10)
    max_tokens := Value.int 1024
    provider := Value.provider ProviderType.OPENAI }

/-- The metadata record `metadata0` with an empty model identifier. -/
def metadataEmptyModel : Metadata := { metadata0 with model := Value.str "" }

/-- A concrete management object for witnesses. -/
def mg0 : Management := ⟨metadata0⟩

/-- The state reached by applying a list of field assignments in order:
the explicit-state image of the in-place `setattr` mutations performed by
`update_metadata` before any error is raised. -/
def applyUpdates (mg : Management) (kvs : List (String × Value)) : Management :=
  kvs.foldl (fun acc kv => ⟨acc.metadata.setField kv.1 kv.2⟩) mg

/-- Helper: a task whose body succeeds on its first attempt finishes in one
attempt with no delay, whatever the retry budget. -/
theorem runTask_ok_first {α : Type} (p : TaskPolicy) (body : Nat → Except ErrKind α) (a : α)
    (h : body 0 = Except.ok a) : runTask p body = ⟨Except.ok a, 1, 0⟩ := by
  unfold runTask
  cases p.retries with
  | zero => simp [runTaskAux, h]
  | succ r => simp [runTaskAux, h]

/-- Helper: under the source's policy (3 retries, 5-second delay), a task
whose body raises the same exception on every attempt - of whatever kind -
runs exactly 4 attempts (1 initial + 3 retries), sleeps 15 seconds in total,
and ends with that exception. -/
theorem runTask_all_err {α : Type} (body : Nat → Except ErrKind α) (e : ErrKind)
    (h : ∀ i, body i = Except.error e) :
    runTask taskPolicy body = ⟨Except.error e, 4, 15⟩ := by
  simp [runTask, taskPolicy, runTaskAux, h]

/-- Helper: when the agent answers "failed" on the first security attempt, the
flow raises the security rejection after one security attempt and zero
response attempts. -/
theorem flow_security_failed (agent : AgentCall) (msg : String)
    (h : agent msg 0 = CallResult.ok "failed") :
    sequential_chat_processing_flow agent msg =
      ⟨Except.error FlowError.securityFailed, 1, 0⟩ := by
  have hlow : (pyLower "failed" == "passed") = false := by decide
  have hb : security_check agent msg 0 = Except.ok false := by
    simp [security_check, h, hlow]
  have hsec := runTask_ok_first taskPolicy (security_check agent msg) false hb
  simp [sequential_chat_processing_flow, hsec]

/-- C1 counterexample: when the model returns the out-of-contract string
"suspicious", the security check returns the value `false` - it does not
raise any error, contradicting the claimed `FatalInferenceError`. -/
theorem security_check_unknown_coerced_to_false :
    security_check agentConstOther "q" 0 = Except.ok false := rfl

/-- C1 (amended): the security check maps every string the model returns to a
boolean - `true` exactly when the lowercased result is "passed" - and never
raises on an out-of-contract string; unexpected values are silently coerced
to `false`. -/
theorem security_check_maps_result (agent : AgentCall) (msg : String) (i : Nat) (s : String)
    (h : agent msg i = CallResult.ok s) :
    security_check agent msg i = Except.ok (pyLower s == "passed") := by
  simp [security_check, h]

/-- C1 witness: the amended theorem evaluated at an agent answering "PASSED". -/
theorem security_check_maps_result_witness :
    security_check agentConstPASSED "q" 0 = Except.ok (pyLower "PASSED" == "passed") :=
  security_check_maps_result agentConstPASSED "q" 0 "PASSED" rfl

/-- C2 counterexample: a `FatalInferenceError` on the first attempt does NOT
abort the task - the task retries and succeeds on its second attempt, so a
fatal error consumed a retry exactly like a transient one. -/
theorem fatal_error_is_retried :
    agentFatalThenOk "q" 0 = CallResult.err ErrKind.fatal ∧
      runTask taskPolicy (security_check agentFatalThenOk "q") = ⟨Except.ok true, 2, 5⟩ :=
  ⟨rfl, rfl⟩

/-- C2 (amended): each task retries on EVERY raised exception regardless of
kind - a `FatalInferenceError` is retried exactly like a
`TransientInferenceError`, up to 3 retries (4 attempts) with a fixed
5-second delay before each retry; only the explicit security-failed result
aborts the run without any retry, because its `ValueError` is raised in the
flow body outside any task. -/
theorem task_retries_every_kind_security_aborts :
    (∀ (e : ErrKind) (agent : AgentCall) (msg : String),
        (∀ i, agent msg i = CallResult.err e) →
        runTask taskPolicy (security_check agent msg) = ⟨Except.error e, 4, 15⟩) ∧
    (∀ (agent : AgentCall) (msg : String),
        agent msg 0 = CallResult.ok "failed" →
        sequential_chat_processing_flow agent msg =
          ⟨Except.error FlowError.securityFailed, 1, 0⟩) := by
  constructor
  · intro e agent msg h
    have hb : ∀ i, security_check agent msg i = Except.error e := by
      intro i
      simp [security_check, h i]
    exact runTask_all_err _ e hb
  · intro agent msg h
    exact flow_security_failed agent msg h

/-- C2 witness: the amended theorem evaluated at an always-fatal agent and at
an agent whose security answer is "failed". -/
theorem task_retries_every_kind_security_aborts_witness :
    runTask taskPolicy (security_check agentConstFatal "q") =
        ⟨Except.error ErrKind.fatal, 4, 15⟩ ∧
      sequential_chat_processing_flow agentConstFailed "q" =
        ⟨Except.error FlowError.securityFailed, 1, 0⟩ :=
  ⟨task_retries_every_kind_security_aborts.1 ErrKind.fatal agentConstFatal "q" (fun _ => rfl),
    task_retries_every_kind_security_aborts.2 agentConstFailed "q" rfl⟩

/-- C3: when the security pipeline deterministically answers "failed", the
run terminates failed with the security-rejection error (the flow's
`ValueError("Security check failed")`, the source's realization of the
spec's `SecurityRejected` outcome) after a single security attempt, and the
`get_response` task is never invoked: zero response attempts. -/
theorem flow_security_rejected_skips_response (agent : AgentCall) (msg : String)
    (h : ∀ i, agent msg i = CallResult.ok "failed") :
    sequential_chat_processing_flow agent msg =
      ⟨Except.error FlowError.securityFailed, 1, 0⟩ :=
  flow_security_failed agent msg (h 0)

/-- C3 witness: the theorem evaluated at the deterministic "failed" agent. -/
theorem flow_security_rejected_skips_response_witness :
    sequential_chat_processing_flow agentConstFailed "msg" =
      ⟨Except.error FlowError.securityFailed, 1, 0⟩ :=
  flow_security_rejected_skips_response agentConstFailed "msg" (fun _ => rfl)

/-- C4 counterexample: with an inference client that raises
`TransientInferenceError` on every attempt, the task (decorated
`retries=3`) runs 4 attempts - 1 initial plus 3 retries - not the 3 attempts
the claim states. -/
theorem transient_exhaustion_runs_four_attempts :
    (runTask taskPolicy (security_check agentAlwaysTransient "q")).attempts = 4 ∧
      ¬((runTask taskPolicy (security_check agentAlwaysTransient "q")).attempts = 3) := by
  constructor
  · rfl
  · decide

/-- C4 (amended): with an inference client that raises
`TransientInferenceError` on every attempt, the task ends failed with that
transient error after exactly 4 attempts (1 initial + 3 configured retries,
15 seconds of delay in total), never a 5th. -/
theorem transient_always_fails_after_four (agent : AgentCall) (msg : String)
    (h : ∀ i, agent msg i = CallResult.err ErrKind.transient) :
    runTask taskPolicy (security_check agent msg) =
      ⟨Except.error ErrKind.transient, 4, 15⟩ := by
  have hb : ∀ i, security_check agent msg i = Except.error ErrKind.transient := by
    intro i
    simp [security_check, h i]
  exact runTask_all_err _ ErrKind.transient hb

/-- C4 witness: the amended theorem evaluated at the always-transient agent. -/
theorem transient_always_fails_after_four_witness :
    runTask taskPolicy (security_check agentAlwaysTransient "m") =
      ⟨Except.error ErrKind.transient, 4, 15⟩ :=
  transient_always_fails_after_four agentAlwaysTransient "m" (fun _ => rfl)

/-- C5 counterexample: the base pipeline itself violates the claimed
superset invariant - stage 2 declares the input "query", which is not among
stage 1 outputs {keywords, reasoning} - and yet its construction succeeds,
yielding exactly that stage sequence; no `ConfigurationError` exists. -/
theorem base_pipeline_violates_chain_yet_constructs :
    chainOk (BaseAgent.init metadata0).stages = false ∧
      (BaseAgent.init metadata0).stages = [ReasoningNode, EnhanceQueryNode, QANode] :=
  ⟨rfl, rfl⟩

/-- C5 (amended): agent construction performs no input/output chaining
validation and cannot raise - for every metadata it unconditionally yields
the fixed stage sequence; the superset invariant in fact FAILS for the base,
advisor and math pipelines (later stages re-read fields such as the original
query that the previous stage does not output) and holds only vacuously for
the single-stage security pipeline. -/
theorem agent_ctors_perform_no_validation (m : Metadata) :
    (BaseAgent.init m).stages = [ReasoningNode, EnhanceQueryNode, QANode] ∧
      chainOk (BaseAgent.init m).stages = false ∧
      chainOk (AdvisorAgent.init m).stages = false ∧
      chainOk (MathAgent.init m).stages = false ∧
      chainOk (SecurityAgent.init m).stages = true :=
  ⟨rfl, rfl, rfl, rfl, rfl⟩

/-- C6: a keyword whose name is a declared metadata attribute updates that
attribute value and reports no error; a keyword whose name is unknown raises
`ValueError("Invalid metadata field: <key>")` - it is not silently
ignored. -/
theorem update_metadata_allowlist (mg : Management) (k : String) (v : Value) :
    (k ∈ metadataFields →
        Management.update_metadata mg [(k, v)] =
          (⟨mg.metadata.setField k v⟩, Option.none)) ∧
      (k ∉ metadataFields →
        Management.update_metadata mg [(k, v)] =
          (mg, Option.some ("Invalid metadata field: " ++ k))) := by
  constructor
  · intro h
    simp [Management.update_metadata, h]
  · intro h
    simp [Management.update_metadata, h]

/-- C6 witness: the theorem evaluated at the allow-listed field "temperature"
and at the unknown field "bogus". -/
theorem update_metadata_allowlist_witness :
    Management.update_metadata mg0 [("temperature", Value.float (1 / 2))] =
        (⟨mg0.metadata.setField "temperature" (Value.float (1 / 2))⟩, Option.none) ∧
      Management.update_metadata mg0 [("bogus", Value.int 1)] =
        (mg0, Option.some ("Invalid metadata field: " ++ "bogus")) :=
  ⟨(update_metadata_allowlist mg0 "temperature" (Value.float (1 / 2))).1 (by decide),
    (update_metadata_allowlist mg0 "bogus" (Value.int 1)).2 (by decide)⟩

/-- C7 counterexample: binding a configuration whose model identifier is the
empty string succeeds - `get_lm` forwards it to the client constructor and
returns a client; no `ConfigurationError` is raised. -/
theorem get_lm_empty_model_id_binds :
    Management.get_lm ⟨metadataEmptyModel⟩ =
      Option.some
        { model := Value.str ""
          max_tokens := Value.int 1024
          temperature := Value.float (7 / 10)
          provider := "openai"
          api_key := Value.null
          base_url := Value.null } :=
  rfl

/-- C7 (amended): `get_lm` performs no validation of any kind: for every
metadata whose provider attribute holds a `ProviderType` member (the only
case in which the attribute access `.value` is even defined), binding
succeeds and simply forwards the configuration values - the model identifier
included, empty or not.  An unsupported provider is excluded upstream by the
`ProviderType` enumeration on the `Metadata` schema, not by the binding. -/
theorem get_lm_forwards_without_validation (m : Metadata) (p : ProviderType)
    (h : m.provider = Value.provider p) :
    Management.get_lm ⟨m⟩ =
      Option.some ⟨m.model, m.max_tokens, m.temperature, p.value, m.api_key, m.base_url⟩ := by
  simp [Management.get_lm, h, Value.enumValue]

/-- C7 witness: the amended theorem evaluated at the empty-model
configuration bound to the openai provider. -/
theorem get_lm_forwards_without_validation_witness :
    Management.get_lm ⟨metadataEmptyModel⟩ =
      Option.some ⟨metadataEmptyModel.model, metadataEmptyModel.max_tokens,
        metadataEmptyModel.temperature, ProviderType.OPENAI.value,
        metadataEmptyModel.api_key, metadataEmptyModel.base_url⟩ :=
  get_lm_forwards_without_validation metadataEmptyModel ProviderType.OPENAI rfl

/-- C9: the security check result is computed case-insensitively - for every
string the agent returns, the check yields `true` exactly when the
lowercased result equals "passed"; every other string yields `false`. -/
theorem security_check_case_insensitive (agent : AgentCall) (msg : String) (i : Nat)
    (s : String) (h : agent msg i = CallResult.ok s) :
    security_check agent msg i = Except.ok true ↔ pyLower s = "passed" := by
  simp [security_check, h]

/-- C9 witness: the theorem evaluated at agents returning "PASSED" (passes)
and "suspicious" (does not). -/
theorem security_check_case_insensitive_witness :
    security_check agentConstPASSED "m" 0 = Except.ok true ∧
      ¬(security_check agentConstOther "m" 0 = Except.ok true) :=
  ⟨(security_check_case_insensitive agentConstPASSED "m" 0 "PASSED" rfl).mpr (by decide),
    fun hc =>
      absurd ((security_check_case_insensitive agentConstOther "m" 0 "suspicious" rfl).mp hc)
        (by decide)⟩

/-- C10: `update_metadata` mutates the bound metadata in place and is not
atomic on error - when an unknown field name follows valid ones, every valid
assignment preceding the first unknown name has already been applied to the
bound state at the moment the error is raised, and no fresh metadata
instance is produced. -/
theorem update_metadata_mutates_prefix_before_error (mg : Management)
    (pre : List (String × Value)) (k : String) (v : Value) (rest : List (String × Value))
    (hpre : ∀ kv ∈ pre, kv.1 ∈ metadataFields)
    (hk : k ∉ metadataFields) :
    Management.update_metadata mg (pre ++ (k, v) :: rest) =
      (applyUpdates mg pre, Option.some ("Invalid metadata field: " ++ k)) := by
  induction pre generalizing mg with
  | nil =>
      simp [Management.update_metadata, hk, applyUpdates]
  | cons hd tl ih =>
      obtain ⟨k0, v0⟩ := hd
      have hhd : k0 ∈ metadataFields := hpre (k0, v0) (by simp)
      have htl : ∀ kv ∈ tl, kv.1 ∈ metadataFields := by
        intro kv hkv
        exact hpre kv (by simp [hkv])
      have hrec := ih ⟨mg.metadata.setField k0 v0⟩ htl
      simpa [Management.update_metadata, hhd, applyUpdates] using hrec

/-- C10 witness: the theorem evaluated at a concrete call whose third keyword
is unknown - the returned state carries the first two assignments, the rest
is never applied. -/
theorem update_metadata_mutates_prefix_before_error_witness :
    Management.update_metadata mg0
        [("model", Value.str "m2"), ("temperature", Value.float (1 / 2)),
          ("oops", Value.int 9), ("tokens", Value.int 3)] =
      (applyUpdates mg0 [("model", Value.str "m2"), ("temperature", Value.float (1 / 2))],
        Option.some ("Invalid metadata field: " ++ "oops")) :=
  update_metadata_mutates_prefix_before_error mg0
    [("model", Value.str "m2"), ("temperature", Value.float (1 / 2))] "oops" (Value.int 9)
    [("tokens", Value.int 3)] (by decide) (by decide)
